import Mathlib

/-!
Verification of the guardrail-gated delegation pipeline in `src/main.py`
(Local-Context-P6): a shallow embedding of the classifier-output
normalization, the guardrail gate, the per-query runner `run_query`, the
interactive loop `main`, and the startup credential check, together with
the static local-context records and their rendering.

External model invocations are modelled as oracles supplied per query:
each query comes with the classifier run's result (a structured output, a
generic mapping, some other shape, or a raised error) and the downstream
agent run's result (answer text or a raised error).
-/

set_option maxRecDepth 8000

namespace LocalContextP6

/-- Python runtime values that can sit in a generic key/value mapping
returned by the classifier.  Only the shapes relevant to truthiness are
distinguished; a list is represented by its length, which is all Python's
`bool()` looks at. -/
inductive PyVal where
  | pyBool (b : Bool)
  | pyInt (n : Int)
  | pyStr (s : String)
  | pyNone
  | pyList (len : Nat)
deriving DecidableEq

/-- Python truthiness: what `bool(v)` returns. -/
def PyVal.truthy : PyVal → Bool
  | .pyBool b => b
  | .pyInt n => n != 0
  | .pyStr s => s != ""
  | .pyNone => false
  | .pyList len => len != 0

/-- The possible shapes of `result.final_output` after the guardrail
agent's run (src/main.py line 114): the structured `MedicineOutput` type,
a generic `dict`, or anything else. -/
inductive ClassifierOutput where
  | structured (response : String) (isMedicineQuery : Bool)
  | mapping (fields : List (String × PyVal))
  | other
deriving DecidableEq

/-- `dict.get key default`: the value at `key`, or `default` when absent.
A Python dict has at most one entry per key, so an association list with
first-match lookup is a faithful model. -/
def dictGet (fields : List (String × PyVal)) (key : String) (deflt : PyVal) : PyVal :=
  match fields.lookup key with
  | some v => v
  | none => deflt

/-- The `is_medicine` computation of `medicine_guardrail`
(src/main.py lines 115-120): start from `False`; a structured output's
`isMedicineQuery` field is used directly; a dict goes through
`bool(output.get("isMedicineQuery", False))`, i.e. Python truthiness of
the looked-up value; any other shape leaves the default `False`. -/
def is_medicine (output : ClassifierOutput) : Bool :=
  match output with
  | .structured _ isMedicineQuery => isMedicineQuery
  | .mapping fields => (dictGet fields "isMedicineQuery" (.pyBool false)).truthy
  | .other => false

/-- The value `medicine_guardrail` returns to the agents runtime
(src/main.py lines 122-125). -/
structure GuardrailFunctionOutput where
  output_info : ClassifierOutput
  tripwire_triggered : Bool
deriving DecidableEq

/-- `medicine_guardrail` (src/main.py lines 111-125): runs the guardrail
agent — modelled by its result `classifierRun` — and wraps the verdict.
A raised error from the classifier run propagates (the function has no
handler); otherwise the tripwire is the negation of `is_medicine`. -/
def medicine_guardrail (classifierRun : Except String ClassifierOutput) :
    Except String GuardrailFunctionOutput :=
  match classifierRun with
  | .error e => .error e
  | .ok output => .ok { output_info := output, tripwire_triggered := !(is_medicine output) }

/-- `BankAccount` (src/main.py lines 44-49).  `account_balance` holds the
text Python's f-string produces for the float field: the literal
`75500.50` is exactly representable and `str()` renders it as `75500.5`. -/
structure BankAccount where
  account_number : String
  customer_name : String
  account_balance : String
  account_type : String
deriving DecidableEq

/-- `StudentProfile` (src/main.py lines 51-56). -/
structure StudentProfile where
  student_id : String
  student_name : String
  current_semester : Nat
  total_courses : Nat
deriving DecidableEq

/-- `LibraryBook` (src/main.py lines 58-63). -/
structure LibraryBook where
  book_id : String
  book_title : String
  author_name : String
  is_available : Bool
deriving DecidableEq

/-- The module-level `bank_account` object (src/main.py lines 68-73). -/
def bank_account : BankAccount :=
  { account_number := "ACC-789456"
    customer_name := "Fatima Khan"
    account_balance := "75500.5"
    account_type := "savings" }

/-- The module-level `student` object (src/main.py lines 75-80). -/
def student : StudentProfile :=
  { student_id := "STU-456"
    student_name := "Hassan Ahmed"
    current_semester := 4
    total_courses := 5 }

/-- The module-level `library_book` object (src/main.py lines 82-87). -/
def library_book : LibraryBook :=
  { book_id := "BOOK-123"
    book_title := "Python Programming"
    author_name := "John Smith"
    is_available := true }

/-- How Python renders a `bool` in an f-string. -/
def pyBoolStr (b : Bool) : String := if b then "True" else "False"

/-- The f-string that builds `local_context_text` (src/main.py lines
130-148), as a function of the three records it interpolates. -/
def render_local_context (b : BankAccount) (s : StudentProfile) (l : LibraryBook) : String :=
  "\nBank Account:\n  Account Number: " ++ b.account_number ++
  "\n  Customer Name: " ++ b.customer_name ++
  "\n  Account Balance: " ++ b.account_balance ++
  "\n  Account Type: " ++ b.account_type ++
  "\n\nStudent Profile:\n  ID: " ++ s.student_id ++
  "\n  Name: " ++ s.student_name ++
  "\n  Semester: " ++ toString s.current_semester ++
  "\n  Total Courses: " ++ toString s.total_courses ++
  "\n\nLibrary Book:\n  ID: " ++ l.book_id ++
  "\n  Title: " ++ l.book_title ++
  "\n  Author: " ++ l.author_name ++
  "\n  Available: " ++ pyBoolStr l.is_available ++ "\n"

/-- `local_context_text` (src/main.py lines 130-148). -/
def local_context_text : String :=
  render_local_context bank_account student library_book

/-- The instructions of `medicine_agent` (src/main.py lines 150-158): the
f-string interpolates `local_context_text` verbatim. -/
def medicine_agent_instructions : String :=
  "\n    You are a medicine expert. Answer user questions about medicine clearly and concisely.\n    Also, you have access to the following local context data:\n    "
  ++ local_context_text ++
  "\n    If the question is not about medicine, do not answer.\n    "

/-- The instructions of `triage_agent` (src/main.py lines 160-169). -/
def triage_agent_instructions : String :=
  "\n    You are a triage agent. Use the given local context:\n    "
  ++ local_context_text ++
  "\n    Delegate the user's query to the correct agent. Use medicine_agent for medicine-related queries.\n    "

/-- Per-query oracle for the two external model invocations:
`classifierRun` is what the guardrail agent's run produces (or raises),
and `agentRun` is what the triage run (with its possible handoff to the
medicine agent) produces (or raises) once the guardrail passes. -/
structure QueryOracle where
  classifierRun : Except String ClassifierOutput
  agentRun : Except String String

/-- Observable events of one process run: model invocations and console
output.  `respondingInvoked` records the instructions the triage run was
started with, so theorems can state which context each query saw.
`uncaughtError` marks an exception escaping `run_query` — the process
dies with a traceback. -/
inductive Event where
  | classifierInvoked (query : String)
  | respondingInvoked (instructions : String) (query : String)
  | printedAnswer (text : String)
  | printedBlock
  | printedGoodbye
  | uncaughtError (e : String)
deriving DecidableEq

/-- `run_query` (src/main.py lines 174-182): run the triage agent — the
input guardrail fires first; a triggered tripwire raises
`InputGuardrailTripwireTriggered`, which the `except` clause turns into
the block notice.  Any other exception (from the classifier run or the
agent run) is not caught: the returned flag is `true` when an exception
escapes `run_query`. -/
def run_query (q : String) (o : QueryOracle) : List Event × Bool :=
  match medicine_guardrail o.classifierRun with
  | .error e => ([.classifierInvoked q, .uncaughtError e], true)
  | .ok g =>
    if g.tripwire_triggered then
      ([.classifierInvoked q, .printedBlock], false)
    else
      match o.agentRun with
      | .error e =>
          ([.classifierInvoked q, .respondingInvoked triage_agent_instructions q,
            .uncaughtError e], true)
      | .ok text =>
          ([.classifierInvoked q, .respondingInvoked triage_agent_instructions q,
            .printedAnswer text], false)

/-- Python `str.isspace` characters relevant here (ASCII whitespace). -/
def pyIsSpace (c : Char) : Bool :=
  c = ' ' || c = '\t' || c = '\n' || c = '\r' || c = '\x0B' || c = '\x0C'

/-- Python `str.strip()`: drop leading and trailing whitespace. -/
def pyStrip (s : String) : String :=
  String.mk (((s.toList.dropWhile pyIsSpace).reverse.dropWhile pyIsSpace).reverse)

/-- Python `str.lower()` (character-wise lowercase; the inputs of
interest are ASCII). -/
def pyLower (s : String) : String :=
  String.mk (s.toList.map Char.toLower)

/-- The loop's termination test (src/main.py line 191):
`question.lower() in ("exit", "quit")`. -/
def isExitToken (question : String) : Bool :=
  pyLower question = "exit" || pyLower question = "quit"

/-- How one process run ends: the `break` after "Goodbye!", an exception
escaping the loop, or the supplied input lines running out. -/
inductive LoopExit where
  | gracefulExit
  | crashed
  | inputExhausted
deriving DecidableEq

/-- The `while True` loop of `main` (src/main.py lines 189-195), applied
to a list of input lines each paired with its query oracle: strip the
line; `"exit"`/`"quit"` (case-insensitive) print "Goodbye!" and break;
a non-empty remainder is run as a query (an escaping exception kills the
process); an empty remainder is skipped. -/
def mainLoop : List (String × QueryOracle) → List Event × LoopExit
  | [] => ([], .inputExhausted)
  | (line, o) :: rest =>
    let question := pyStrip line
    if isExitToken question then
      ([.printedGoodbye], .gracefulExit)
    else if question ≠ "" then
      let r := run_query question o
      if r.2 then
        (r.1, .crashed)
      else
        (r.1 ++ (mainLoop rest).1, (mainLoop rest).2)
    else
      mainLoop rest

/-- The startup credential check (src/main.py lines 20-24):
`os.getenv` yields `none` when the variable is unset, and
`if not OPENAI_API_KEY` treats both `None` and the empty string as
missing, raising `ValueError` before anything else runs. -/
def startup (openai_api_key : Option String) : Except String String :=
  match openai_api_key with
  | none => .error "OPENAI_API_KEY not set in .env file."
  | some k =>
    if k = "" then .error "OPENAI_API_KEY not set in .env file."
    else .ok k

/-- The whole process: module initialization (credential check) runs
before `main`; a startup error means the loop never starts and no event
is ever produced. -/
def program (openai_api_key : Option String) (inputs : List (String × QueryOracle)) :
    Except String (List Event × LoopExit) :=
  match startup openai_api_key with
  | .error e => .error e
  | .ok _ => .ok (mainLoop inputs)

/-- The `allowed` field of the spec's GuardrailVerdict, derived from the
code: the query passes the gate exactly when the tripwire did not fire. -/
def allowedVerdict (output : ClassifierOutput) : Bool :=
  match medicine_guardrail (.ok output) with
  | .ok g => !g.tripwire_triggered
  | .error _ => false

/-- The spec's own normalization rule, written from its words (§4.2): a
structured output's field is used directly; from a generic mapping the
boolean field is extracted, "defaulting to false if absent or of the
wrong type"; any other shape defaults to not-relevant.  Kept separate
from `is_medicine` (the code's rule) so the two can be compared. -/
def is_medicine_spec (output : ClassifierOutput) : Bool :=
  match output with
  | .structured _ isMedicineQuery => isMedicineQuery
  | .mapping fields =>
    match fields.lookup "isMedicineQuery" with
    | some (.pyBool b) => b
    | _ => false
  | .other => false

/-- Well-formedness of the classifier output, written from the spec's
words (§3, §4.2): the structured type, or a mapping carrying an actual
boolean at the expected field; everything else is malformed. -/
def wellFormedSpec (output : ClassifierOutput) : Bool :=
  match output with
  | .structured _ _ => true
  | .mapping fields =>
    match fields.lookup "isMedicineQuery" with
    | some (.pyBool _) => true
    | _ => false
  | .other => false

/-- `isPrefixChars pat l`: `pat` is a prefix of `l`. -/
def isPrefixChars : List Char → List Char → Bool
  | [], _ => true
  | _ :: _, [] => false
  | c :: cs, d :: ds => c == d && isPrefixChars cs ds

/-- `hasSubChars pat l`: `pat` occurs contiguously inside `l`. -/
def hasSubChars (pat : List Char) : List Char → Bool
  | [] => pat.isEmpty
  | c :: cs => isPrefixChars pat (c :: cs) || hasSubChars pat cs

/-- `strHasSub s pat`: `pat` occurs verbatim inside `s`. -/
def strHasSub (s pat : String) : Bool :=
  hasSubChars pat.toList s.toList

/-! ## Helper lemmas -/

/-- Whatever the oracle does, `run_query`'s trace starts with the
classifier invocation on the query it was given. -/
theorem run_query_trace_head (q : String) (o : QueryOracle) :
    ∃ evs, (run_query q o).1 = Event.classifierInvoked q :: evs := by
  rcases o with ⟨cr, ar⟩
  cases cr with
  | error e => exact ⟨[.uncaughtError e], rfl⟩
  | ok out =>
    by_cases h : is_medicine out
    · cases ar with
      | error e =>
        exact ⟨[.respondingInvoked triage_agent_instructions q, .uncaughtError e],
          by simp [run_query, medicine_guardrail, h]⟩
      | ok t =>
        exact ⟨[.respondingInvoked triage_agent_instructions q, .printedAnswer t],
          by simp [run_query, medicine_guardrail, h]⟩
    · exact ⟨[.printedBlock], by simp [run_query, medicine_guardrail, h]⟩

/-! ## Claims -/

/-- C2 (counterexample): a generic mapping whose `isMedicineQuery` field
holds the non-boolean, truthy value `"no"` is treated as relevant by the
code (`bool("no")` is `True`), while the claim's rule — default to
`false` on a wrong-typed field — yields not-relevant. -/
theorem C2_counterexample :
    is_medicine (.mapping [("isMedicineQuery", .pyStr "no")]) = true ∧
    is_medicine_spec (.mapping [("isMedicineQuery", .pyStr "no")]) = false := by
  decide

/-- C2 (amended): the normalization uses a structured output's field
directly, maps any other shape to `false`, defaults to `false` when a
mapping lacks the field, and otherwise coerces the field's value with
Python truthiness (so a genuine boolean is used as-is, but a wrong-typed
truthy value passes). -/
theorem C2_normalization :
    (∀ r b, is_medicine (.structured r b) = b) ∧
    (∀ fields, fields.lookup "isMedicineQuery" = none →
      is_medicine (.mapping fields) = false) ∧
    (∀ fields v, fields.lookup "isMedicineQuery" = some v →
      is_medicine (.mapping fields) = v.truthy) ∧
    (∀ fields b, fields.lookup "isMedicineQuery" = some (.pyBool b) →
      is_medicine (.mapping fields) = b) ∧
    is_medicine .other = false := by
  refine ⟨fun r b => rfl, ?_, ?_, ?_, rfl⟩
  · intro fields h
    simp [is_medicine, dictGet, h, PyVal.truthy]
  · intro fields v h
    simp [is_medicine, dictGet, h]
  · intro fields b h
    simp [is_medicine, dictGet, h, PyVal.truthy]

/-- C2 (witness): the truthiness branch evaluated at a concrete mapping. -/
theorem C2_normalization_witness :
    is_medicine (.mapping [("isMedicineQuery", .pyStr "yes")]) =
      PyVal.truthy (.pyStr "yes") :=
  C2_normalization.2.2.1 [("isMedicineQuery", .pyStr "yes")] (.pyStr "yes") (by decide)

/-- C3: when the classifier reports not-relevant, `run_query` prints
exactly the block notice after the classifier invocation, and the
responding phase (triage/specialist run) never happens. -/
theorem C3_block_short_circuit (q : String) (o : QueryOracle) (out : ClassifierOutput)
    (hok : o.classifierRun = .ok out) (hrel : is_medicine out = false) :
    (run_query q o).1 = [.classifierInvoked q, .printedBlock] ∧
    (∀ instr q2, Event.respondingInvoked instr q2 ∉ (run_query q o).1) := by
  have h : run_query q o = ([.classifierInvoked q, .printedBlock], false) := by
    simp [run_query, medicine_guardrail, hok, hrel]
  rw [h]
  refine ⟨rfl, ?_⟩
  intro instr q2
  simp

/-- C3 (witness): a concrete blocked query. -/
theorem C3_block_short_circuit_witness :
    (run_query "What is my balance?"
        ⟨.ok (.structured "not medicine" false), .ok "unused"⟩).1 =
      [.classifierInvoked "What is my balance?", .printedBlock] :=
  (C3_block_short_circuit "What is my balance?"
      ⟨.ok (.structured "not medicine" false), .ok "unused"⟩
      (.structured "not medicine" false) rfl rfl).1

/-- C4: when the classifier reports relevant, `run_query` starts the
responding phase (the triage run with its instructions) and never prints
the block notice, whether or not the responding run itself succeeds. -/
theorem C4_allowed_reaches_responding (q : String) (o : QueryOracle) (out : ClassifierOutput)
    (hok : o.classifierRun = .ok out) (hrel : is_medicine out = true) :
    Event.respondingInvoked triage_agent_instructions q ∈ (run_query q o).1 ∧
    Event.printedBlock ∉ (run_query q o).1 := by
  cases hagent : o.agentRun with
  | error e => simp [run_query, medicine_guardrail, hok, hrel, hagent]
  | ok text => simp [run_query, medicine_guardrail, hok, hrel, hagent]

/-- C4 (witness): a concrete allowed query. -/
theorem C4_allowed_reaches_responding_witness :
    Event.respondingInvoked triage_agent_instructions "What causes a fever?" ∈
      (run_query "What causes a fever?"
        ⟨.ok (.structured "medicine" true), .ok "An infection."⟩).1 :=
  (C4_allowed_reaches_responding "What causes a fever?"
      ⟨.ok (.structured "medicine" true), .ok "An infection."⟩
      (.structured "medicine" true) rfl rfl).1

/-- C5 (counterexample): a mapping holding the truthy non-boolean `7` at
the expected field is malformed by the spec's well-formedness reading,
yet the code's verdict allows it through the gate. -/
theorem C5_counterexample :
    wellFormedSpec (.mapping [("isMedicineQuery", .pyInt 7)]) = false ∧
    allowedVerdict (.mapping [("isMedicineQuery", .pyInt 7)]) = true := by
  decide

/-- C5 (amended): `allowed` equals the classifier's relevance verdict on
every well-formed output; on malformed output it is `false` for a
non-mapping shape or a mapping missing the field, but equals the Python
truthiness of the field's value when a mapping carries one of the wrong
type. -/
theorem C5_allowed_characterization :
    (∀ out, wellFormedSpec out = true → allowedVerdict out = is_medicine_spec out) ∧
    allowedVerdict .other = false ∧
    (∀ fields, fields.lookup "isMedicineQuery" = none →
      allowedVerdict (.mapping fields) = false) ∧
    (∀ fields v, fields.lookup "isMedicineQuery" = some v →
      allowedVerdict (.mapping fields) = v.truthy) := by
  refine ⟨?_, rfl, ?_, ?_⟩
  · intro out hwf
    cases out with
    | structured r b =>
      simp [allowedVerdict, medicine_guardrail, is_medicine, is_medicine_spec]
    | mapping fields =>
      cases hl : fields.lookup "isMedicineQuery" with
      | none => simp [wellFormedSpec, hl] at hwf
      | some v =>
        cases v with
        | pyBool b =>
          simp [allowedVerdict, medicine_guardrail, is_medicine, is_medicine_spec,
            dictGet, hl, PyVal.truthy]
        | pyInt n => simp [wellFormedSpec, hl] at hwf
        | pyStr s => simp [wellFormedSpec, hl] at hwf
        | pyNone => simp [wellFormedSpec, hl] at hwf
        | pyList len => simp [wellFormedSpec, hl] at hwf
    | other => simp [wellFormedSpec] at hwf
  · intro fields h
    simp [allowedVerdict, medicine_guardrail, is_medicine, dictGet, h, PyVal.truthy]
  · intro fields v h
    simp [allowedVerdict, medicine_guardrail, is_medicine, dictGet, h]

/-- C5 (witness): the well-formed case evaluated at a concrete
structured output. -/
theorem C5_allowed_characterization_witness :
    allowedVerdict (.structured "medicine" true) =
      is_medicine_spec (.structured "medicine" true) :=
  C5_allowed_characterization.1 (.structured "medicine" true) (by decide)

/-- A two-line session where the first query's classifier run raises,
used to exhibit the loop's behavior on an invocation error. -/
def c1Inputs : List (String × QueryOracle) :=
  [("What causes a fever?", ⟨.error "transport error", .ok "unused"⟩),
   ("Is aspirin safe?", ⟨.ok (.structured "medicine" true), .ok "Generally yes."⟩)]

/-- C1 (counterexample): a classifier-run error on the first query is not
caught anywhere — no error notice is printed, the loop dies (the
exception escapes `run_query` and `main` has no handler), and the second
query is never accepted: its classifier is never invoked. -/
theorem C1_counterexample :
    (mainLoop c1Inputs).2 = .crashed ∧
    (mainLoop c1Inputs).1 =
      [.classifierInvoked "What causes a fever?", .uncaughtError "transport error"] ∧
    Event.classifierInvoked "Is aspirin safe?" ∉ (mainLoop c1Inputs).1 := by
  decide

/-- C1 (amended): for every query in which either external model
invocation raises — the guardrail-agent (classifier) run, or the
triage/specialist run once the gate has passed — the exception escapes
`run_query` uncaught (only the tripwire exception has a handler): the
loop dies with that query's trace alone, the escaping error is the last
thing that happens, no error notice, block notice or answer is printed
for the query, and the remaining input lines are never processed. -/
theorem C1_uncaught_invocation_error (line : String) (o : QueryOracle) (e : String)
    (rest : List (String × QueryOracle))
    (hq : pyStrip line ≠ "") (hexit : isExitToken (pyStrip line) = false)
    (herr : o.classifierRun = .error e ∨
      ∃ out, o.classifierRun = .ok out ∧ is_medicine out = true ∧ o.agentRun = .error e) :
    mainLoop ((line, o) :: rest) = ((run_query (pyStrip line) o).1, .crashed) ∧
    ((run_query (pyStrip line) o).1).getLast? = some (.uncaughtError e) ∧
    Event.printedBlock ∉ (run_query (pyStrip line) o).1 ∧
    (∀ t, Event.printedAnswer t ∉ (run_query (pyStrip line) o).1) := by
  have hrq : run_query (pyStrip line) o =
      ([.classifierInvoked (pyStrip line), .uncaughtError e], true) ∨
      run_query (pyStrip line) o =
      ([.classifierInvoked (pyStrip line),
        .respondingInvoked triage_agent_instructions (pyStrip line),
        .uncaughtError e], true) := by
    rcases herr with herr | ⟨out, hok, hrel, haerr⟩
    · left
      simp [run_query, medicine_guardrail, herr]
    · right
      simp [run_query, medicine_guardrail, hok, hrel, haerr]
  rcases hrq with hrq | hrq <;>
    simp [mainLoop, hexit, hq, hrq]

/-- C1 (witness): the amended behavior at a concrete session whose
responding run (the second external invocation) raises after the gate
has passed. -/
theorem C1_uncaught_invocation_error_witness :
    mainLoop [("What is flu?", ⟨.ok (.structured "medicine" true), .error "timeout"⟩)] =
      ((run_query "What is flu?"
          ⟨.ok (.structured "medicine" true), .error "timeout"⟩).1, .crashed) :=
  (C1_uncaught_invocation_error "What is flu?"
      ⟨.ok (.structured "medicine" true), .error "timeout"⟩ "timeout" []
      (by decide) (by decide)
      (.inr ⟨.structured "medicine" true, rfl, rfl, rfl⟩)).1

/-- C6: on a single input line, the loop ends with "Goodbye!" exactly
when the stripped line lowercases to `exit` or `quit`; an exit token
terminates the loop regardless of what follows; every other line that is
non-empty after stripping is forwarded to the pipeline (its classifier is
invoked on the stripped text); a line that strips to empty contributes
nothing — the classifier never runs on it. -/
theorem C6_loop_termination_and_forwarding (line : String) (o : QueryOracle)
    (rest : List (String × QueryOracle)) :
    ((mainLoop [(line, o)]).2 = .gracefulExit ↔ isExitToken (pyStrip line) = true) ∧
    (isExitToken (pyStrip line) = true →
      mainLoop ((line, o) :: rest) = ([.printedGoodbye], .gracefulExit)) ∧
    (isExitToken (pyStrip line) = false → pyStrip line ≠ "" →
      Event.classifierInvoked (pyStrip line) ∈ (mainLoop ((line, o) :: rest)).1) ∧
    (pyStrip line = "" → mainLoop ((line, o) :: rest) = mainLoop rest) := by
  refine ⟨?_, ?_, ?_, ?_⟩
  · cases hex : isExitToken (pyStrip line) with
    | true => simp [mainLoop, hex]
    | false =>
      by_cases hq : pyStrip line = ""
      · have h0 : isExitToken "" = false := by decide
        simp [mainLoop, hq, h0]
      · cases hr : (run_query (pyStrip line) o).2 with
        | true => simp [mainLoop, hex, hq, hr]
        | false => simp [mainLoop, hex, hq, hr]
  · intro hex
    simp [mainLoop, hex]
  · intro hex hq
    obtain ⟨evs, hevs⟩ := run_query_trace_head (pyStrip line) o
    cases hr : (run_query (pyStrip line) o).2 with
    | true => simp [mainLoop, hex, hq, hr, hevs]
    | false => simp [mainLoop, hex, hq, hr, hevs]
  · intro hq
    have h0 : isExitToken "" = false := by decide
    simp [mainLoop, hq, h0]

/-- C6 (witness): "QUIT" ends the loop; a question is forwarded stripped;
a blank line is skipped — each at a concrete input. -/
theorem C6_loop_termination_and_forwarding_witness :
    mainLoop [("QUIT", ⟨.ok .other, .ok "unused"⟩)] =
      ([.printedGoodbye], .gracefulExit) :=
  (C6_loop_termination_and_forwarding "QUIT" ⟨.ok .other, .ok "unused"⟩ []).2.1 (by decide)

/-- C7: without the credential, module initialization raises before the
loop ever starts: the whole run is the startup error and produces no
event, whatever input lines would have followed. -/
theorem C7_missing_credential_fatal (inputs : List (String × QueryOracle)) :
    program none inputs = .error "OPENAI_API_KEY not set in .env file." := rfl

/-- C8: the context rendering is a pure function of the records — equal
record sets give byte-identical text — and every field of the bank
account, the student profile and the library book occurs verbatim in
`local_context_text`, which itself occurs verbatim in the medicine
agent's instructions (the prompt context of the Specialist Responder). -/
theorem C8_context_rendering_verbatim :
    (∀ (b1 b2 : BankAccount) (s1 s2 : StudentProfile) (l1 l2 : LibraryBook),
      b1 = b2 → s1 = s2 → l1 = l2 →
      render_local_context b1 s1 l1 = render_local_context b2 s2 l2) ∧
    (strHasSub local_context_text bank_account.account_number = true ∧
     strHasSub local_context_text bank_account.customer_name = true ∧
     strHasSub local_context_text bank_account.account_balance = true ∧
     strHasSub local_context_text bank_account.account_type = true ∧
     strHasSub local_context_text student.student_id = true ∧
     strHasSub local_context_text student.student_name = true ∧
     strHasSub local_context_text (toString student.current_semester) = true ∧
     strHasSub local_context_text (toString student.total_courses) = true ∧
     strHasSub local_context_text library_book.book_id = true ∧
     strHasSub local_context_text library_book.book_title = true ∧
     strHasSub local_context_text library_book.author_name = true ∧
     strHasSub local_context_text (pyBoolStr library_book.is_available) = true ∧
     strHasSub medicine_agent_instructions local_context_text = true) := by
  constructor
  · rintro b1 b2 s1 s2 l1 l2 rfl rfl rfl
    rfl
  · decide

/-- C8 (witness): the determinism conjunct at the concrete records. -/
theorem C8_context_rendering_verbatim_witness :
    render_local_context bank_account student library_book =
      render_local_context bank_account student library_book :=
  C8_context_rendering_verbatim.1 bank_account bank_account student student
    library_book library_book rfl rfl rfl

/-- C9: every responding run, in any query, is started with the one
instruction text rendered from the startup records (which embeds
`local_context_text` verbatim), and once a query completes without an
exception the rest of the loop behaves exactly as if that query had
never happened — no state crosses from one query to the next. -/
theorem C9_no_cross_query_state (line : String) (o : QueryOracle)
    (rest : List (String × QueryOracle)) :
    (∀ (q : String) (o2 : QueryOracle) (instr q2 : String),
      Event.respondingInvoked instr q2 ∈ (run_query q o2).1 →
      instr = triage_agent_instructions) ∧
    strHasSub triage_agent_instructions local_context_text = true ∧
    (isExitToken (pyStrip line) = false → pyStrip line ≠ "" →
      (run_query (pyStrip line) o).2 = false →
      mainLoop ((line, o) :: rest) =
        ((run_query (pyStrip line) o).1 ++ (mainLoop rest).1, (mainLoop rest).2)) := by
  refine ⟨?_, by decide, ?_⟩
  · intro q o2 instr q2 hmem
    rcases o2 with ⟨cr, ar⟩
    cases cr with
    | error e => simp [run_query, medicine_guardrail] at hmem
    | ok out =>
      by_cases h : is_medicine out
      · cases ar with
        | error e =>
          simp [run_query, medicine_guardrail, h] at hmem
          exact hmem.1
        | ok t =>
          simp [run_query, medicine_guardrail, h] at hmem
          exact hmem.1
      · simp [run_query, medicine_guardrail, h] at hmem
  · intro hex hq hr
    simp [mainLoop, hex, hq, hr]

/-- C9 (witness): the frame property at a concrete completed query
followed by an exit line. -/
theorem C9_no_cross_query_state_witness :
    mainLoop [("Is aspirin safe?", ⟨.ok (.structured "medicine" true), .ok "Yes."⟩),
              ("exit", ⟨.ok .other, .ok "unused"⟩)] =
      ((run_query "Is aspirin safe?" ⟨.ok (.structured "medicine" true), .ok "Yes."⟩).1 ++
        (mainLoop [("exit", ⟨.ok .other, .ok "unused"⟩)]).1,
       (mainLoop [("exit", ⟨.ok .other, .ok "unused"⟩)]).2) :=
  (C9_no_cross_query_state "Is aspirin safe?"
      ⟨.ok (.structured "medicine" true), .ok "Yes."⟩
      [("exit", ⟨.ok .other, .ok "unused"⟩)]).2.2 (by decide) (by decide) (by decide)

/-- C10: a line forwarded to the pipeline arrives stripped of leading and
trailing whitespace — the classifier invocation carries the stripped
text, not the raw line — and a whitespace-padded exit token such as
`"  EXIT  "` also terminates the loop. -/
theorem C10_stripped_query_forwarding (line : String) (o : QueryOracle)
    (rest : List (String × QueryOracle)) :
    (isExitToken (pyStrip line) = false → pyStrip line ≠ "" →
      (mainLoop ((line, o) :: rest)).1.head? =
        some (Event.classifierInvoked (pyStrip line))) ∧
    mainLoop (("  EXIT  ", o) :: rest) = ([.printedGoodbye], .gracefulExit) := by
  constructor
  · intro hex hq
    obtain ⟨evs, hevs⟩ := run_query_trace_head (pyStrip line) o
    cases hr : (run_query (pyStrip line) o).2 with
    | true => simp [mainLoop, hex, hq, hr, hevs]
    | false => simp [mainLoop, hex, hq, hr, hevs]
  · have h0 : isExitToken (pyStrip "  EXIT  ") = true := by decide
    simp [mainLoop, h0]

/-- C10 (witness): a padded question is forwarded with its padding
stripped. -/
theorem C10_stripped_query_forwarding_witness :
    (mainLoop [("  What is flu?  ",
        ⟨.ok (.structured "medicine" true), .ok "A viral infection."⟩)]).1.head? =
      some (Event.classifierInvoked "What is flu?") :=
  (C10_stripped_query_forwarding "  What is flu?  "
      ⟨.ok (.structured "medicine" true), .ok "A viral infection."⟩ []).1
    (by decide) (by decide)

end LocalContextP6
